import Mathlib

/-!
Verification development for the childcare companion application
(`constants.py`, `utils.py`).

The flat-file JSON stores (`children.json`, `diaries.json`,
`embeddings_metadata.json`) are modelled as the fields of an `AppState`
record; each `load_*`/`save_*` pair in `utils.py` becomes reading/updating
the corresponding field.  The external OpenAI embedding model is modelled
as an oracle `embed : String → Embedding α`, where the empty list encodes
the "embedding failed" outcome produced by `create_embedding`'s exception
handler.  Embedding coordinates live in an arbitrary linearly ordered
commutative ring `α` standing in for the float32 values of the code (ℚ and
ℝ are instances; concrete evaluations below use ℤ).  The FAISS
`IndexFlatL2` nearest-neighbour query is modelled as a stable sort of the
candidate indices by squared Euclidean (L2) distance to the query vector
followed by `take k`, which is the documented behaviour of a flat L2
index.  Dates parsed by `datetime.strptime(_, "%Y-%m-%d")` are modelled as
a year/month/day record.
-/

namespace Childcare

/-- A calendar date as produced by `datetime.strptime(s, "%Y-%m-%d").date()`
    and `date.today()`. -/
structure YMDate where
  year : Int
  month : Int
  day : Int
  deriving Repr, DecidableEq

/-- A child record `{child_id, name, birth_date, notes}` from
    `children.json`.  The `notes` key is optional at the JSON level
    (the code reads it with `child.get("notes", ...)`), hence
    `Option String`. -/
structure Child where
  child_id : String
  name : String
  birth_date : YMDate
  notes : Option String
  deriving Repr, DecidableEq

/-- A diary record `{diary_id, child_ids, date, content}` from
    `diaries.json`. -/
structure Diary where
  diary_id : String
  child_ids : List String
  date : String
  content : String
  deriving Repr, DecidableEq

/-- An embedding vector with coordinates in `α`; `[]` encodes the failure
    outcome of `create_embedding`. -/
abbrev Embedding (α : Type) := List α

/-- A record `{diary_id, embedding}` of `embeddings_metadata.json`. -/
structure EmbeddingRecord (α : Type) where
  diary_id : String
  embedding : Embedding α
  deriving Repr, DecidableEq

/-- The three JSON stores of the application. -/
structure AppState (α : Type) where
  children : List Child
  diaries : List Diary
  embeddings : List (EmbeddingRecord α)
  deriving Repr, DecidableEq

/-! ### Constants (`constants.py`) -/

/-- `RAG_TOP_K = 5`: number of related diaries retrieved. -/
def RAG_TOP_K : Nat := 5

/-- `RAG_MIN_SIMILARITY = 0.5`: minimum similarity threshold setting. -/
def RAG_MIN_SIMILARITY : ℚ := 1 / 2

/-- `EMBEDDING_DIMENSION = 1536`. -/
def EMBEDDING_DIMENSION : Nat := 1536

/-- `SYSTEM_PROMPT` from `constants.py`. -/
def SYSTEM_PROMPT : String :=
  "あなたは経験豊富で優しい育児アドバイザーです。\n親の悩みや困りごとに対して、共感的で肯定的なアドバイスを提供してください。\n\n以下のルールを守ってください：\n1. 親の気持ちに共感し、否定的な言葉は使わない\n2. 具体的で実践的なアドバイスを提供する\n3. 医療的な診断や判断は行わない（必要に応じて専門家への相談を勧める）\n4. 子どもの個性や成長のペースを尊重する\n5. 親自身のケアも大切であることを伝える\n"

/-- `ADVICE_PROMPT_TEMPLATE.format(...)` from `constants.py`/`utils.py`:
    the template with its six slots filled positionally. -/
def advice_prompt_format (child_name : String) (age_months : Int)
    (age_display notes diary_context question : String) : String :=
  "\n【子どもの情報】\n- 名前: " ++ child_name ++
  "\n- 月齢: " ++ toString age_months ++ "ヶ月（" ++ age_display ++
  "）\n- メモ: " ++ notes ++
  "\n\n【関連する過去の日記】\n" ++ diary_context ++
  "\n\n【親の相談内容】\n" ++ question ++
  "\n\n上記の情報を踏まえて、親に寄り添った育児アドバイスを提供してください。\n"

/-! ### Age functions (`utils.py` lines 80–104) -/

/-- `calculate_age_months`: whole months between the birth date and today,
    one less if today's day-of-month is before the birth day, clamped at 0. -/
def calculate_age_months (birth_date : YMDate) (today : YMDate) : Int :=
  let months := (today.year - birth_date.year) * 12 + (today.month - birth_date.month)
  let months := if today.day < birth_date.day then months - 1 else months
  max 0 months

/-- `format_age_display`: renders a month count as `◯歳◯ヶ月`.
    Python `//` and `%` are floor division and floor modulus; `Int`'s `/`
    and `%` (Euclidean) agree with them on the positive divisor 12. -/
def format_age_display (months : Int) : String :=
  let years := months / 12
  let remaining_months := months % 12
  if years == 0 then
    toString remaining_months ++ "ヶ月"
  else if remaining_months == 0 then
    toString years ++ "歳"
  else
    toString years ++ "歳" ++ toString remaining_months ++ "ヶ月"

section Operations

variable {α : Type} [LinearOrderedCommRing α]

/-! ### Child operations (`utils.py` lines 107–156) -/

/-- `add_child`: appends a fresh child record (the `uuid.uuid4()` result is
    passed in as `new_id`); the record always carries a `notes` key. -/
def add_child (new_id : String) (name : String) (birth_date : YMDate)
    (notes : String) (s : AppState α) : AppState α × Child :=
  let child : Child := ⟨new_id, name, birth_date, some notes⟩
  ({ s with children := s.children ++ [child] }, child)

/-- `delete_child`: removes the child record and every diary whose
    `child_ids` list contains the child.  The embeddings metadata store is
    not touched. -/
def delete_child (child_id : String) (s : AppState α) : AppState α :=
  { s with
    children := s.children.filter fun c => c.child_id != child_id,
    diaries := s.diaries.filter fun d => !(d.child_ids.contains child_id) }

/-- `get_child_by_id`: first child record with the given id, if any. -/
def get_child_by_id (s : AppState α) (child_id : String) : Option Child :=
  s.children.find? fun c => c.child_id == child_id

/-- `get_diaries_by_child`: the diaries whose `child_ids` contain the
    given child id, in store order.  The same list comprehension appears
    inline in `search_similar_diaries`. -/
def get_diaries_by_child (s : AppState α) (child_id : String) : List Diary :=
  s.diaries.filter fun d => d.child_ids.contains child_id

/-! ### Embedding metadata operations (`utils.py` lines 238–283) -/

/-- The loop body of `update_diary_embedding`: replace the embedding of the
    first record with the given `diary_id`, else append a new record. -/
def upsertMeta (metadata : List (EmbeddingRecord α)) (diary_id : String)
    (embedding : Embedding α) : List (EmbeddingRecord α) :=
  match metadata with
  | [] => [⟨diary_id, embedding⟩]
  | m :: rest =>
    if m.diary_id == diary_id then ⟨m.diary_id, embedding⟩ :: rest
    else m :: upsertMeta rest diary_id embedding

/-- `update_diary_embedding`: embed the content; on failure return with no
    state change, else upsert the metadata record.  (`rebuild_faiss_index`
    only writes the derived, never-read-back index file and changes no
    store.) -/
def update_diary_embedding (embed : String → Embedding α) (diary_id : String)
    (content : String) (s : AppState α) : AppState α :=
  let embedding := embed content
  if embedding.isEmpty then s
  else { s with embeddings := upsertMeta s.embeddings diary_id embedding }

/-! ### Diary operations (`utils.py` lines 163–218) -/

/-- `add_diary`: append the new diary (fresh `uuid4` id passed as `new_id`),
    save, then best-effort embedding update. -/
def add_diary (embed : String → Embedding α) (new_id : String)
    (child_ids : List String) (date_str : String) (content : String)
    (s : AppState α) : AppState α × Diary :=
  let diary : Diary := ⟨new_id, child_ids, date_str, content⟩
  let s := { s with diaries := s.diaries ++ [diary] }
  (update_diary_embedding embed new_id content s, diary)

/-- The update loop of `update_diary`: overwrite the fields of the first
    diary with the given id. -/
def updateDiaryList (diary_id : String) (child_ids : List String)
    (date_str : String) (content : String) : List Diary → List Diary
  | [] => []
  | d :: rest =>
    if d.diary_id == diary_id then ⟨d.diary_id, child_ids, date_str, content⟩ :: rest
    else d :: updateDiaryList diary_id child_ids date_str content rest

/-- `update_diary`: overwrite the fields of the first diary with the given
    id, then refresh its embedding. -/
def update_diary (embed : String → Embedding α) (diary_id : String)
    (child_ids : List String) (date_str : String) (content : String)
    (s : AppState α) : AppState α :=
  let s := { s with diaries := updateDiaryList diary_id child_ids date_str content s.diaries }
  update_diary_embedding embed diary_id content s

/-- `delete_diary`: drop the diary and every metadata record with its id;
    the subsequent `rebuild_faiss_index` touches no store. -/
def delete_diary (diary_id : String) (s : AppState α) : AppState α :=
  { s with
    diaries := s.diaries.filter fun d => d.diary_id != diary_id,
    embeddings := s.embeddings.filter fun m => m.diary_id != diary_id }

/-! ### Similarity search (`utils.py` lines 286–336)

`search_similar_diaries` wraps its whole body in `try/except` and returns
`[]` on any exception.  We model the body as an `Except`-valued function:
the only runtime error reachable in the model is the NumPy/FAISS failure
on a ragged embedding matrix or on a query vector whose dimension differs
from the matrix's, modelled by the explicit dimension check; the wrapper
maps any error to `[]`, so the Lean function is total, mirroring
"never raises past this boundary". -/

/-- Squared Euclidean (L2) distance used by `faiss.IndexFlatL2` on
    same-length vectors. -/
def sqDist (u v : Embedding α) : α :=
  ((u.zip v).map fun p => (p.1 - p.2) ^ 2).sum

/-- The distance key of candidate index `i`: squared L2 distance from the
    query vector to the `i`-th filtered embedding. -/
def searchKey (qv : Embedding α) (filtered : List (EmbeddingRecord α)) (i : Nat) : α :=
  sqDist qv ((filtered[i]?.map EmbeddingRecord.embedding).getD [])

/-- `index.search(query_vec, k)` on a flat L2 index over the filtered
    embeddings: all candidate indices, stably sorted by increasing squared
    distance to the query. -/
def searchOrder (qv : Embedding α) (filtered : List (EmbeddingRecord α)) : List Nat :=
  List.insertionSort (fun i j => searchKey qv filtered i ≤ searchKey qv filtered j)
    (List.range filtered.length)

/-- The metadata records whose `diary_id` belongs to one of the child's
    diaries (`filtered_metadata` in the code). -/
def filtered_metadata (s : AppState α) (child_id : String) : List (EmbeddingRecord α) :=
  s.embeddings.filter fun m =>
    ((get_diaries_by_child s child_id).map Diary.diary_id).contains m.diary_id

/-- One iteration of the result loop: look the metadata record up (the
    guard `idx < len(filtered_metadata)`), then take the first matching
    diary (`next(..., None)`); `none` when either step misses. -/
def assembleResult (child_diaries : List Diary)
    (filtered : List (EmbeddingRecord α)) (idx : Nat) : Option Diary :=
  filtered[idx]?.bind fun m =>
    child_diaries.find? fun d => d.diary_id == m.diary_id

/-- The retrieval and result-assembly of `search_similar_diaries`: the
    `k = min(top_k, len(filtered_metadata))` nearest indices, each mapped to
    its diary record, misses skipped. -/
def searchCore (qv : Embedding α) (child_diaries : List Diary)
    (filtered : List (EmbeddingRecord α)) (top_k : Nat) : List Diary :=
  ((searchOrder qv filtered).take (min top_k filtered.length)).filterMap
    (assembleResult child_diaries filtered)

/-- The `try` body of `search_similar_diaries`. -/
def searchBody (embed : String → Embedding α) (s : AppState α)
    (query child_id : String) (top_k : Nat) : Except String (List Diary) :=
  let query_embedding := embed query
  if query_embedding.isEmpty then .ok []
  else if s.embeddings.isEmpty then .ok []
  else if (filtered_metadata s child_id).isEmpty then .ok []
  else if !((filtered_metadata s child_id).all fun m =>
      m.embedding.length == query_embedding.length) then
    .error "np.array / faiss: inconsistent embedding dimensions"
  else
    .ok (searchCore query_embedding (get_diaries_by_child s child_id)
      (filtered_metadata s child_id) top_k)

/-- `search_similar_diaries`: the `try` body with every error caught and
    turned into the empty result. -/
def search_similar_diaries (embed : String → Embedding α) (s : AppState α)
    (query child_id : String) (top_k : Nat) : List Diary :=
  match searchBody embed s query child_id top_k with
  | .ok results => results
  | .error _ => []

/-! ### Advice generation (`utils.py` lines 343–389) -/

/-- The notes slot of the prompt: `child.get("notes", "特になし")` — the
    placeholder is the `dict.get` default, used when the key is absent. -/
def notes_for_prompt (child : Child) : String :=
  child.notes.getD "特になし"

/-- The diary-context block: one numbered section per retrieved diary, in
    retrieval order, numbering from 1; a fixed marker when none. -/
def diary_context_of (similar_diaries : List Diary) : String :=
  if similar_diaries.isEmpty then "関連する日記はありません。"
  else String.join ((similar_diaries.enumFrom 1).map fun p =>
    "\n【日記" ++ toString p.1 ++ "】(" ++ p.2.date ++ ")\n" ++ p.2.content ++ "\n")

/-- Steps 1–5 of `generate_advice`: the filled user prompt, or `none` when
    the child is not found (the code then returns a fixed message). -/
def generate_advice_user_prompt (embed : String → Embedding α) (s : AppState α)
    (today : YMDate) (question child_id : String) : Option String :=
  (get_child_by_id s child_id).map fun child =>
    let age_months := calculate_age_months child.birth_date today
    let age_display := format_age_display age_months
    let similar_diaries := search_similar_diaries embed s question child_id RAG_TOP_K
    let diary_context := diary_context_of similar_diaries
    advice_prompt_format child.name age_months age_display
      (notes_for_prompt child) diary_context question

/-- `generate_advice`: fixed message when the child is absent, else the
    chat model's answer to (`SYSTEM_PROMPT`, user prompt); the chat model is
    an external oracle. -/
def generate_advice (embed : String → Embedding α) (chat : String → String → String)
    (s : AppState α) (today : YMDate) (question child_id : String) : String :=
  match generate_advice_user_prompt embed s today question child_id with
  | none => "子ども情報が見つかりません。"
  | some user_prompt => chat SYSTEM_PROMPT user_prompt

end Operations

/-! ## Verification -/

set_option linter.unusedSectionVars false

section Verification

variable {α : Type} [LinearOrderedCommRing α]

/-- Projection: `delete_child` filters the diary store. -/
theorem delete_child_diaries (cid : String) (s : AppState α) :
    (delete_child cid s).diaries
      = s.diaries.filter fun d => !(d.child_ids.contains cid) := rfl

/-- Projection: `delete_child` leaves the embedding metadata untouched. -/
theorem delete_child_embeddings (cid : String) (s : AppState α) :
    (delete_child cid s).embeddings = s.embeddings := rfl

/-- Projection: `delete_diary` filters the diary store. -/
theorem delete_diary_diaries (did : String) (s : AppState α) :
    (delete_diary did s).diaries
      = s.diaries.filter fun d => d.diary_id != did := rfl

/-- Projection: `delete_diary` filters the embedding metadata. -/
theorem delete_diary_embeddings (did : String) (s : AppState α) :
    (delete_diary did s).embeddings
      = s.embeddings.filter fun m => m.diary_id != did := rfl

/-- Every index produced by `searchOrder` addresses a filtered record. -/
theorem searchOrder_lt {qv : Embedding α} {filtered : List (EmbeddingRecord α)}
    {i : Nat} (h : i ∈ searchOrder qv filtered) : i < filtered.length := by
  unfold searchOrder at h
  rw [List.mem_insertionSort] at h
  exact List.mem_range.mp h

/-- Every diary produced by the result-assembly loop comes from the
    child-filtered diary list. -/
theorem searchCore_subset {qv : Embedding α} {cds : List Diary}
    {filtered : List (EmbeddingRecord α)} {k : Nat} {d : Diary}
    (hd : d ∈ searchCore qv cds filtered k) : d ∈ cds := by
  simp only [searchCore, assembleResult, List.mem_filterMap] at hd
  obtain ⟨idx, -, hf⟩ := hd
  rw [Option.bind_eq_some] at hf
  obtain ⟨m, -, hfind⟩ := hf
  exact List.mem_of_find?_eq_some hfind

/-- `search_similar_diaries` either hits one of the guard/error branches and
    returns `[]`, or reduces to the core retrieval over the filtered data. -/
theorem search_eq_nil_or_core (embed : String → Embedding α) (s : AppState α)
    (q cid : String) (k : Nat) :
    search_similar_diaries embed s q cid k = []
    ∨ ((embed q).isEmpty = false
       ∧ (filtered_metadata s cid).isEmpty = false
       ∧ ((filtered_metadata s cid).all fun m =>
            m.embedding.length == (embed q).length) = true
       ∧ search_similar_diaries embed s q cid k
           = searchCore (embed q) (get_diaries_by_child s cid)
               (filtered_metadata s cid) k) := by
  by_cases h1 : (embed q).isEmpty
  · exact Or.inl (by simp [search_similar_diaries, searchBody, h1])
  · by_cases h2 : s.embeddings.isEmpty
    · exact Or.inl (by simp [search_similar_diaries, searchBody, h1, h2])
    · by_cases h3 : (filtered_metadata s cid).isEmpty
      · exact Or.inl (by simp [search_similar_diaries, searchBody, h1, h2, h3])
      · by_cases h4 : ((filtered_metadata s cid).all fun m =>
            m.embedding.length == (embed q).length)
        · refine Or.inr ⟨by simpa using h1, by simpa using h3, h4, ?_⟩
          simp [search_similar_diaries, searchBody, h1, h2, h3, h4]
        · exact Or.inl (by simp [search_similar_diaries, searchBody, h1, h2, h3, h4])

/-- Any returned diary is one of the stored diaries of the queried child. -/
theorem search_mem {embed : String → Embedding α} {s : AppState α}
    {q cid : String} {k : Nat} {d : Diary}
    (hd : d ∈ search_similar_diaries embed s q cid k) :
    d ∈ s.diaries ∧ cid ∈ d.child_ids := by
  rcases search_eq_nil_or_core embed s q cid k with h | ⟨-, -, -, h⟩
  · rw [h] at hd; cases hd
  · rw [h] at hd
    have hcd := searchCore_subset hd
    simp only [get_diaries_by_child, List.mem_filter] at hcd
    exact ⟨hcd.1, by simpa using hcd.2⟩

/-- C1: every diary in the sequence returned by
    `search_similar_diaries(query, child_id, top_k)` has `child_id` in its
    child-identifier set; a diary whose `child_ids` excludes `child_id` is
    never returned. -/
theorem C1_search_child_scoped (embed : String → Embedding α) (s : AppState α)
    (query child_id : String) (top_k : Nat) :
    ∀ d ∈ search_similar_diaries embed s query child_id top_k,
      child_id ∈ d.child_ids :=
  fun _ hd => (search_mem hd).2

/-- C5: the search engine never surfaces an error: the modelled function is
    total, and each failure mode — failed query embedding, empty
    child-filtered vector set, or a runtime error inside the retrieval body
    — yields the empty sequence. -/
theorem C5_search_never_raises (embed : String → Embedding α) (s : AppState α)
    (q cid : String) (k : Nat) :
    (embed q = [] → search_similar_diaries embed s q cid k = [])
    ∧ (filtered_metadata s cid = [] → search_similar_diaries embed s q cid k = [])
    ∧ (∀ e, searchBody embed s q cid k = .error e →
        search_similar_diaries embed s q cid k = []) := by
  refine ⟨?_, ?_, ?_⟩
  · intro h
    simp [search_similar_diaries, searchBody, h]
  · intro h
    by_cases h1 : (embed q).isEmpty
    · simp [search_similar_diaries, searchBody, h1]
    · by_cases h2 : s.embeddings.isEmpty
      · simp [search_similar_diaries, searchBody, h1, h2]
      · simp [search_similar_diaries, searchBody, h1, h2, h]
  · intro e h
    simp [search_similar_diaries, h]

/-- C10: `delete_child(c)` removes exactly the diaries whose child-identifier
    set contains `c`: every surviving diary does not reference `c`, every
    diary not referencing `c` survives, every diary referencing `c` — even
    one also referencing other children — is gone, and the surviving diaries
    form an order-preserving sublist of the original store. -/
theorem C10_delete_child_scope (cid : String) (s : AppState α) :
    (∀ d ∈ (delete_child cid s).diaries, cid ∉ d.child_ids)
    ∧ (∀ d ∈ s.diaries, cid ∉ d.child_ids → d ∈ (delete_child cid s).diaries)
    ∧ (∀ d ∈ s.diaries, cid ∈ d.child_ids → d ∉ (delete_child cid s).diaries)
    ∧ (delete_child cid s).diaries.Sublist s.diaries := by
  rw [delete_child_diaries]
  refine ⟨?_, ?_, ?_, List.filter_sublist _⟩
  · intro d hd
    rw [List.mem_filter] at hd
    simpa using hd.2
  · intro d hd hcid
    rw [List.mem_filter]
    exact ⟨hd, by simpa using hcid⟩
  · intro d hd hcid hmem
    rw [List.mem_filter] at hmem
    exact (by simpa using hmem.2 : cid ∉ d.child_ids) hcid

/-- C6: the age in whole months follows the clamped month-difference formula
    and the display label has the three claimed forms; the two concrete
    examples of the specification evaluate as claimed. -/
theorem C6_age_computation :
    (∀ b t : YMDate, calculate_age_months b t =
      max 0 ((t.year - b.year) * 12 + (t.month - b.month) -
        (if t.day < b.day then 1 else 0)))
    ∧ (∀ m : Int, 0 ≤ m → m < 12 → format_age_display m = toString m ++ "ヶ月")
    ∧ (∀ m : Int, 12 ≤ m → m % 12 = 0 →
        format_age_display m = toString (m / 12) ++ "歳")
    ∧ (∀ m : Int, 12 ≤ m → m % 12 ≠ 0 →
        format_age_display m = toString (m / 12) ++ "歳" ++ toString (m % 12) ++ "ヶ月")
    ∧ calculate_age_months ⟨2023, 1, 15⟩ ⟨2024, 3, 10⟩ = 13
    ∧ format_age_display 13 = "1歳1ヶ月"
    ∧ calculate_age_months ⟨2024, 3, 20⟩ ⟨2024, 3, 10⟩ = 0
    ∧ format_age_display 0 = "0ヶ月" := by
  refine ⟨?_, ?_, ?_, ?_, by decide, by decide, by decide, by decide⟩
  · intro b t
    by_cases h : t.day < b.day <;> simp [calculate_age_months, h]
  · intro m h0 h12
    have hd : m / 12 = 0 := Int.ediv_eq_zero_of_lt h0 h12
    have hm : m % 12 = m := Int.emod_eq_of_lt h0 h12
    simp [format_age_display, hd, hm]
  · intro m h12 hm
    have h1 : 1 ≤ m / 12 := (Int.le_ediv_iff_mul_le (by decide)).mpr (by omega)
    have hne : ¬ (m / 12 = 0) := by omega
    simp [format_age_display, hne, hm]
  · intro m h12 hm
    have h1 : 1 ≤ m / 12 := (Int.le_ediv_iff_mul_le (by decide)).mpr (by omega)
    have hne : ¬ (m / 12 = 0) := by omega
    simp [format_age_display, hne, hm]

/-- The candidate ordering has one index per filtered record. -/
theorem searchOrder_length (qv : Embedding α) (filtered : List (EmbeddingRecord α)) :
    (searchOrder qv filtered).length = filtered.length := by
  unfold searchOrder
  rw [List.length_insertionSort, List.length_range]

/-- When all guards pass, the search is the core retrieval. -/
theorem search_eq_core {embed : String → Embedding α} {s : AppState α}
    {q cid : String} (k : Nat)
    (hq : (embed q).isEmpty = false)
    (hn : (filtered_metadata s cid).isEmpty = false)
    (hdim : ((filtered_metadata s cid).all fun m =>
        m.embedding.length == (embed q).length) = true) :
    search_similar_diaries embed s q cid k
      = searchCore (embed q) (get_diaries_by_child s cid)
          (filtered_metadata s cid) k := by
  have h2 : s.embeddings.isEmpty = false := by
    by_contra hc
    rw [Bool.not_eq_false, List.isEmpty_iff] at hc
    rw [show filtered_metadata s cid = List.filter _ s.embeddings from rfl, hc] at hn
    simp at hn
  simp [search_similar_diaries, searchBody, hq, h2, hn, hdim]

/-- Each filtered metadata record has a matching diary among the child's
    diaries (its id was drawn from their id list). -/
theorem filtered_metadata_matches {s : AppState α} {cid : String}
    {m : EmbeddingRecord α} (hm : m ∈ filtered_metadata s cid) :
    ∃ d ∈ get_diaries_by_child s cid, d.diary_id = m.diary_id := by
  simp only [filtered_metadata, List.mem_filter] at hm
  have h2 : m.diary_id ∈ (get_diaries_by_child s cid).map Diary.diary_id := by
    simpa using hm.2
  rw [List.mem_map] at h2
  obtain ⟨d, hd, hid⟩ := h2
  exact ⟨d, hd, hid⟩

/-- Result assembly never misses on an in-range index. -/
theorem assembleResult_isSome {s : AppState α} {cid : String}
    {idx : Nat} (hidx : idx < (filtered_metadata s cid).length) :
    (assembleResult (get_diaries_by_child s cid) (filtered_metadata s cid) idx).isSome := by
  unfold assembleResult
  rw [List.getElem?_eq_getElem hidx]
  have hm : (filtered_metadata s cid)[idx] ∈ filtered_metadata s cid :=
    List.getElem_mem hidx
  obtain ⟨d, hd, hdid⟩ := filtered_metadata_matches hm
  simp only [Option.some_bind, List.find?_isSome]
  exact ⟨d, hd, by simp [hdid]⟩

/-- A `filterMap` over a list where the function never misses keeps the
    length. -/
theorem length_filterMap_of_forall_isSome {β γ : Type _} {f : β → Option γ} :
    ∀ {l : List β}, (∀ a ∈ l, (f a).isSome) → (l.filterMap f).length = l.length
  | [], _ => rfl
  | a :: l, h => by
    obtain ⟨b, hb⟩ := Option.isSome_iff_exists.mp (h a (List.mem_cons_self a l))
    rw [List.filterMap_cons, hb, List.length_cons, List.length_cons,
      length_filterMap_of_forall_isSome fun x hx => h x (List.mem_cons_of_mem _ hx)]

/-- C3: when the query embedding succeeds, the vectors are well-formed and
    `n > 0` candidates survive the child filter, the search returns exactly
    `min(top_k, n)` diaries — `top_k > n` yields all `n`, with no padding
    and no error — and no minimum-similarity threshold is applied: whenever
    `top_k ≥ n`, every filtered candidate's diary occurs in the result no
    matter its distance. -/
theorem C3_search_count (embed : String → Embedding α) (s : AppState α)
    (q cid : String) (k : Nat)
    (hq : embed q ≠ [])
    (hdim : ∀ m ∈ filtered_metadata s cid, m.embedding.length = (embed q).length)
    (hn : filtered_metadata s cid ≠ []) :
    (search_similar_diaries embed s q cid k).length
      = min k (filtered_metadata s cid).length
    ∧ ((filtered_metadata s cid).length ≤ k →
        ∀ m ∈ filtered_metadata s cid,
          ∃ d ∈ search_similar_diaries embed s q cid k, d.diary_id = m.diary_id) := by
  have hq' : (embed q).isEmpty = false := by
    rw [Bool.eq_false_iff]
    simpa [List.isEmpty_iff] using hq
  have hn' : (filtered_metadata s cid).isEmpty = false := by
    rw [Bool.eq_false_iff]
    simpa [List.isEmpty_iff] using hn
  have hdim' : ((filtered_metadata s cid).all fun m =>
      m.embedding.length == (embed q).length) = true := by
    rw [List.all_eq_true]
    intro m hm
    simpa using hdim m hm
  rw [search_eq_core k hq' hn' hdim']
  constructor
  · unfold searchCore
    rw [length_filterMap_of_forall_isSome ?_, List.length_take, searchOrder_length]
    · omega
    · intro idx hidx
      exact assembleResult_isSome (searchOrder_lt (List.mem_of_mem_take hidx))
  · intro hk m hm
    obtain ⟨idx, hlt, heq⟩ := List.mem_iff_getElem.mp hm
    have htake : (searchOrder (embed q) (filtered_metadata s cid)).take
        (min k (filtered_metadata s cid).length)
        = searchOrder (embed q) (filtered_metadata s cid) := by
      apply List.take_of_length_le
      rw [searchOrder_length]
      omega
    have hmemo : idx ∈ (searchOrder (embed q) (filtered_metadata s cid)) := by
      unfold searchOrder
      rw [List.mem_insertionSort, List.mem_range]
      exact hlt
    obtain ⟨d, hd⟩ := Option.isSome_iff_exists.mp (assembleResult_isSome hlt)
    have hdid : d.diary_id = m.diary_id := by
      have hf := hd
      unfold assembleResult at hf
      rw [List.getElem?_eq_getElem hlt, heq, Option.some_bind] at hf
      simpa using List.find?_some hf
    refine ⟨d, ?_, hdid⟩
    unfold searchCore
    rw [htake, List.mem_filterMap]
    exact ⟨idx, hmemo, hd⟩

/-- The embedding stored for a diary identifier: the vector of the first
    metadata record carrying it. -/
def storedEmbedding (metadata : List (EmbeddingRecord α)) (diary_id : String) :
    Option (Embedding α) :=
  (metadata.find? fun m => m.diary_id == diary_id).map EmbeddingRecord.embedding

/-- The squared Euclidean distance between a diary's stored embedding and
    the query vector (0 when no embedding is stored). -/
def distToQuery (qv : Embedding α) (metadata : List (EmbeddingRecord α))
    (d : Diary) : α :=
  match storedEmbedding metadata d.diary_id with
  | some v => sqDist qv v
  | none => 0

/-- With unique diary ids, the stored embedding of a record's id is that
    record's vector. -/
theorem storedEmbedding_of_mem {metadata : List (EmbeddingRecord α)}
    (hnd : (metadata.map EmbeddingRecord.diary_id).Nodup)
    {m : EmbeddingRecord α} (hm : m ∈ metadata) :
    storedEmbedding metadata m.diary_id = some m.embedding := by
  unfold storedEmbedding
  have hsome : (metadata.find? fun x => x.diary_id == m.diary_id).isSome := by
    rw [List.find?_isSome]
    exact ⟨m, hm, by simp⟩
  obtain ⟨m', hm'⟩ := Option.isSome_iff_exists.mp hsome
  have hmem' : m' ∈ metadata := List.mem_of_find?_eq_some hm'
  have hid : m'.diary_id = m.diary_id := by simpa using List.find?_some hm'
  have hmm : m' = m := List.inj_on_of_nodup_map hnd hmem' hm hid
  rw [hm', hmm]
  rfl

/-- With unique diary ids, the diary assembled from candidate index `idx`
    sits at distance `searchKey idx` from the query. -/
theorem dist_of_assembleResult {s : AppState α} {cid : String} {qv : Embedding α}
    (hnd : (s.embeddings.map EmbeddingRecord.diary_id).Nodup)
    {idx : Nat} {d : Diary}
    (hf : assembleResult (get_diaries_by_child s cid) (filtered_metadata s cid) idx
      = some d) :
    distToQuery qv s.embeddings d = searchKey qv (filtered_metadata s cid) idx := by
  unfold assembleResult at hf
  rw [Option.bind_eq_some] at hf
  obtain ⟨m, hm, hfind⟩ := hf
  have hdid : d.diary_id = m.diary_id := by simpa using List.find?_some hfind
  have hmemf : m ∈ filtered_metadata s cid := List.getElem?_mem hm
  have hmemb : m ∈ s.embeddings := by
    simp only [filtered_metadata, List.mem_filter] at hmemf
    exact hmemf.1
  unfold distToQuery searchKey
  rw [hdid, storedEmbedding_of_mem hnd hmemb, hm]
  rfl

/-- C2: with unique metadata ids, the returned diaries are ordered nearest
    first — by non-decreasing squared Euclidean distance between each
    diary's stored embedding and the query's embedding. -/
theorem C2_search_sorted (embed : String → Embedding α) (s : AppState α)
    (q cid : String) (k : Nat)
    (hnd : (s.embeddings.map EmbeddingRecord.diary_id).Nodup) :
    (search_similar_diaries embed s q cid k).Pairwise fun d1 d2 =>
      distToQuery (embed q) s.embeddings d1
        ≤ distToQuery (embed q) s.embeddings d2 := by
  rcases search_eq_nil_or_core embed s q cid k with h | ⟨-, -, -, h⟩
  · rw [h]
    exact List.Pairwise.nil
  · rw [h]
    unfold searchCore
    have hsorted : ((searchOrder (embed q) (filtered_metadata s cid)).take
        (min k (filtered_metadata s cid).length)).Pairwise fun i j =>
          searchKey (embed q) (filtered_metadata s cid) i
            ≤ searchKey (embed q) (filtered_metadata s cid) j := by
      apply List.Pairwise.sublist (List.take_sublist _ _)
      haveI : IsTotal Nat fun i j =>
          searchKey (embed q) (filtered_metadata s cid) i
            ≤ searchKey (embed q) (filtered_metadata s cid) j :=
        ⟨fun a b => le_total _ _⟩
      haveI : IsTrans Nat fun i j =>
          searchKey (embed q) (filtered_metadata s cid) i
            ≤ searchKey (embed q) (filtered_metadata s cid) j :=
        ⟨fun a b c hab hbc => le_trans hab hbc⟩
      exact List.sorted_insertionSort _ _
    refine List.Pairwise.filterMap _ (fun i j hij d hd d' hd' => ?_) hsorted
    rw [dist_of_assembleResult hnd (Option.mem_def.mp hd),
      dist_of_assembleResult hnd (Option.mem_def.mp hd')]
    exact hij

/-- C7: when embedding generation fails during `add_diary`, the new diary is
    still appended to the diary store, the embedding metadata store is
    unchanged, and (the fresh `uuid4` id being new) no EmbeddingRecord for
    the new diary's identifier exists afterwards. -/
theorem C7_add_diary_embed_fail (embed : String → Embedding α)
    (new_id : String) (cids : List String) (dstr content : String)
    (s : AppState α)
    (hfail : embed content = [])
    (hfresh : ∀ m ∈ s.embeddings, m.diary_id ≠ new_id) :
    (add_diary embed new_id cids dstr content s).1.diaries
      = s.diaries ++ [⟨new_id, cids, dstr, content⟩]
    ∧ (add_diary embed new_id cids dstr content s).1.embeddings = s.embeddings
    ∧ ∀ m ∈ (add_diary embed new_id cids dstr content s).1.embeddings,
        m.diary_id ≠ new_id := by
  have hupd : ∀ s' : AppState α, update_diary_embedding embed new_id content s' = s' := by
    intro s'
    simp [update_diary_embedding, hfail]
  refine ⟨?_, ?_, ?_⟩
  · simp [add_diary, hupd]
  · simp [add_diary, hupd]
  · intro m hm
    simp only [add_diary, hupd] at hm
    exact hfresh m hm

/-- Upserting an existing id leaves the id list unchanged (in-place vector
    replacement). -/
theorem upsertMeta_ids_of_mem {metadata : List (EmbeddingRecord α)} {id : String}
    (v : Embedding α) (h : id ∈ metadata.map EmbeddingRecord.diary_id) :
    (upsertMeta metadata id v).map EmbeddingRecord.diary_id
      = metadata.map EmbeddingRecord.diary_id := by
  induction metadata with
  | nil => simp at h
  | cons m rest ih =>
    by_cases hm : (m.diary_id == id)
    · simp [upsertMeta, hm]
    · have hne : m.diary_id ≠ id := by simpa using hm
      have h' : id ∈ rest.map EmbeddingRecord.diary_id := by
        rw [List.map_cons, List.mem_cons] at h
        rcases h with he | h'
        · exact absurd he.symm hne
        · exact h'
      simp [upsertMeta, hm, ih h']

/-- Upserting a new id appends a single fresh record at the end. -/
theorem upsertMeta_of_not_mem {metadata : List (EmbeddingRecord α)} {id : String}
    (v : Embedding α) (h : id ∉ metadata.map EmbeddingRecord.diary_id) :
    upsertMeta metadata id v = metadata ++ [⟨id, v⟩] := by
  induction metadata with
  | nil => rfl
  | cons m rest ih =>
    have hm : (m.diary_id == id) = false := by
      simp only [beq_eq_false_iff_ne, ne_eq]
      intro he
      exact h (by simp [he])
    have h' : id ∉ rest.map EmbeddingRecord.diary_id := fun hr => h (by simp [hr])
    simp [upsertMeta, hm, ih h']

/-- Upserting preserves uniqueness of the diary ids. -/
theorem upsertMeta_nodup {metadata : List (EmbeddingRecord α)} {id : String}
    (v : Embedding α) (hnd : (metadata.map EmbeddingRecord.diary_id).Nodup) :
    ((upsertMeta metadata id v).map EmbeddingRecord.diary_id).Nodup := by
  by_cases h : id ∈ metadata.map EmbeddingRecord.diary_id
  · rw [upsertMeta_ids_of_mem v h]
    exact hnd
  · rw [upsertMeta_of_not_mem v h, List.map_append]
    simp only [List.map_cons, List.map_nil]
    rw [List.nodup_append]
    refine ⟨hnd, List.nodup_singleton _, ?_⟩
    intro a ha ha'
    rw [List.mem_singleton] at ha'
    exact h (ha' ▸ ha)

/-- Looking an id up skips a leading record with a different id. -/
theorem storedEmbedding_cons_of_ne {m : EmbeddingRecord α}
    {rest : List (EmbeddingRecord α)} {id : String}
    (h : (m.diary_id == id) = false) :
    storedEmbedding (m :: rest) id = storedEmbedding rest id := by
  simp [storedEmbedding, List.find?_cons, h]

/-- After an upsert, the stored embedding of the id is the new vector. -/
theorem upsertMeta_stored (metadata : List (EmbeddingRecord α)) (id : String)
    (v : Embedding α) :
    storedEmbedding (upsertMeta metadata id v) id = some v := by
  induction metadata with
  | nil => simp [upsertMeta, storedEmbedding]
  | cons m rest ih =>
    by_cases hm : (m.diary_id == id)
    · simp [upsertMeta, hm, storedEmbedding, List.find?_cons_of_pos, hm]
    · have hm' : (m.diary_id == id) = false := by simpa using hm
      simp only [upsertMeta, hm', Bool.false_eq_true, if_false]
      rw [storedEmbedding_cons_of_ne hm']
      exact ih

/-- C8: at most one EmbeddingRecord per diary identifier, preserved by every
    metadata operation: the upsert of `update_diary_embedding` replaces the
    vector in place when the id exists (id list unchanged, new vector
    stored) and appends exactly one new record otherwise, and the removal in
    `delete_diary` deletes every record with the id and keeps uniqueness. -/
theorem C8_metadata_unique (embed : String → Embedding α)
    (id content : String) (s : AppState α)
    (hnd : (s.embeddings.map EmbeddingRecord.diary_id).Nodup) :
    ((update_diary_embedding embed id content s).embeddings.map
        EmbeddingRecord.diary_id).Nodup
    ∧ (embed content ≠ [] → id ∈ s.embeddings.map EmbeddingRecord.diary_id →
        (update_diary_embedding embed id content s).embeddings.map
            EmbeddingRecord.diary_id
          = s.embeddings.map EmbeddingRecord.diary_id)
    ∧ (embed content ≠ [] → id ∉ s.embeddings.map EmbeddingRecord.diary_id →
        (update_diary_embedding embed id content s).embeddings
          = s.embeddings ++ [⟨id, embed content⟩])
    ∧ (embed content ≠ [] →
        storedEmbedding (update_diary_embedding embed id content s).embeddings id
          = some (embed content))
    ∧ (∀ m ∈ (delete_diary id s).embeddings, m.diary_id ≠ id)
    ∧ ((delete_diary id s).embeddings.map EmbeddingRecord.diary_id).Nodup := by
  refine ⟨?_, ?_, ?_, ?_, ?_, ?_⟩
  · by_cases hfail : (embed content).isEmpty
    · simp [update_diary_embedding, hfail, hnd]
    · simp only [update_diary_embedding, hfail, Bool.false_eq_true, if_false]
      exact upsertMeta_nodup _ hnd
  · intro hne hin
    have hfail : (embed content).isEmpty = false := by
      rw [Bool.eq_false_iff]
      simpa [List.isEmpty_iff] using hne
    simp only [update_diary_embedding, hfail, Bool.false_eq_true, if_false]
    exact upsertMeta_ids_of_mem _ hin
  · intro hne hnin
    have hfail : (embed content).isEmpty = false := by
      rw [Bool.eq_false_iff]
      simpa [List.isEmpty_iff] using hne
    simp only [update_diary_embedding, hfail, Bool.false_eq_true, if_false]
    exact upsertMeta_of_not_mem _ hnin
  · intro hne
    have hfail : (embed content).isEmpty = false := by
      rw [Bool.eq_false_iff]
      simpa [List.isEmpty_iff] using hne
    simp only [update_diary_embedding, hfail, Bool.false_eq_true, if_false]
    exact upsertMeta_stored _ _ _
  · intro m hm
    rw [delete_diary_embeddings, List.mem_filter] at hm
    simpa using hm.2
  · rw [delete_diary_embeddings]
    exact hnd.sublist (List.Sublist.map _ (List.filter_sublist _))

/-- C4 (amended): `delete_diary` removes the diary's EmbeddingRecord and the
    deleted diary never appears in any later search for any child;
    `delete_child` removes its diaries without removing their
    EmbeddingRecords, yet a diary deleted that way also never appears in any
    later search result. -/
theorem C4_delete_consistency (did : String) (s : AppState α) :
    (∀ m ∈ (delete_diary did s).embeddings, m.diary_id ≠ did)
    ∧ (∀ (embed : String → Embedding α) q cid k,
        ∀ d ∈ search_similar_diaries embed (delete_diary did s) q cid k,
          d.diary_id ≠ did)
    ∧ (∀ cid (embed : String → Embedding α) q cid2 k,
        ∀ d ∈ search_similar_diaries embed (delete_child cid s) q cid2 k,
          cid ∉ d.child_ids) := by
  refine ⟨?_, ?_, ?_⟩
  · intro m hm
    rw [delete_diary_embeddings, List.mem_filter] at hm
    simpa using hm.2
  · intro embed q cid k d hd
    have h := (search_mem hd).1
    rw [delete_diary_diaries, List.mem_filter] at h
    simpa using h.2
  · intro cid embed q cid2 k d hd
    have h := (search_mem hd).1
    rw [delete_child_diaries, List.mem_filter] at h
    simpa using h.2

/-- C9 (amended): the notes slot of the advice prompt receives the stored
    notes string verbatim — an empty string stays empty — and the fixed
    placeholder `特になし` is used exactly when the child record has no
    notes field. -/
theorem C9_notes_slot (embed : String → Embedding α) (s : AppState α)
    (today : YMDate) (q cid : String) (child : Child)
    (hc : get_child_by_id s cid = some child) :
    generate_advice_user_prompt embed s today q cid
      = some (advice_prompt_format child.name
          (calculate_age_months child.birth_date today)
          (format_age_display (calculate_age_months child.birth_date today))
          (notes_for_prompt child)
          (diary_context_of (search_similar_diaries embed s q cid RAG_TOP_K)) q)
    ∧ (child.notes = some "" → notes_for_prompt child = "")
    ∧ (child.notes = none → notes_for_prompt child = "特になし") := by
  refine ⟨?_, ?_, ?_⟩
  · simp [generate_advice_user_prompt, hc]
  · intro h
    simp [notes_for_prompt, h]
  · intro h
    simp [notes_for_prompt, h]

/-! ### Concrete data used in the evaluation theorems -/

/-- A constant embedding oracle sending every text to the vector `[0]`. -/
def exEmbed : String → Embedding Int := fun _ => [0]

/-- An embedding oracle that always fails. -/
def exEmbedFail : String → Embedding Int := fun _ => []

/-- A diary of child `c1` whose embedding has distance 9 to the query. -/
def exD1 : Diary := ⟨"d1", ["c1"], "2024-01-01", "one"⟩

/-- A diary shared by `c1` and `c2` whose embedding has distance 1. -/
def exD2 : Diary := ⟨"d2", ["c1", "c2"], "2024-01-02", "two"⟩

/-- A child profile whose stored notes are the empty string. -/
def exChild : Child := ⟨"c1", "太郎", ⟨2024, 1, 1⟩, some ""⟩

/-- A concrete store: one child, two diaries, two embedding records. -/
def exState : AppState Int :=
  ⟨[exChild], [exD1, exD2], [⟨"d1", [3]⟩, ⟨"d2", [1]⟩]⟩

/-- C1 witness: on the concrete store the search returns `exD2`, and the
    theorem yields `"c1" ∈ exD2.child_ids`. -/
theorem C1_search_child_scoped_witness : "c1" ∈ exD2.child_ids :=
  C1_search_child_scoped exEmbed exState "q" "c1" 5 exD2 (by decide)

/-- C5 witness: with a failing embedding oracle the search returns `[]`. -/
theorem C5_search_never_raises_witness :
    exEmbedFail "q" = [] ∧ search_similar_diaries exEmbedFail exState "q" "c1" 5 = [] :=
  ⟨rfl, (C5_search_never_raises exEmbedFail exState "q" "c1" 5).1 rfl⟩

/-- C10 witness: `exD2` belongs to both `c1` and `c2`; deleting `c2` removes
    it (so it disappears for `c1` as well). -/
theorem C10_delete_child_scope_witness :
    exD2 ∈ exState.diaries ∧ "c2" ∈ exD2.child_ids
    ∧ exD2 ∉ (delete_child "c2" exState).diaries :=
  ⟨by decide, by decide,
    (C10_delete_child_scope "c2" exState).2.2.1 exD2 (by decide) (by decide)⟩

/-- C6 witness: the under-one-year display rule applied at 5 months. -/
theorem C6_age_computation_witness :
    (0 : Int) ≤ 5 ∧ (5 : Int) < 12 ∧ format_age_display 5 = "5ヶ月" :=
  ⟨by decide, by decide, C6_age_computation.2.1 5 (by decide) (by decide)⟩

/-- A store with the child but neither diaries nor embeddings. -/
def exStateNoDiary : AppState Int := ⟨[exChild], [], []⟩

/-- C2 witness: on the concrete store (distances 9 and 1) the result is
    sorted by distance to the query. -/
theorem C2_search_sorted_witness :
    (exState.embeddings.map EmbeddingRecord.diary_id).Nodup
    ∧ (search_similar_diaries exEmbed exState "q" "c1" 5).Pairwise fun d1 d2 =>
        distToQuery (exEmbed "q") exState.embeddings d1
          ≤ distToQuery (exEmbed "q") exState.embeddings d2 :=
  ⟨by decide, C2_search_sorted exEmbed exState "q" "c1" 5 (by decide)⟩

/-- C3 witness: both stored diaries of `c1` survive the filter, and the
    search returns `min 5 2 = 2` of them. -/
theorem C3_search_count_witness :
    (search_similar_diaries exEmbed exState "q" "c1" 5).length
      = min 5 (filtered_metadata exState "c1").length :=
  (C3_search_count exEmbed exState "q" "c1" 5 (by decide) (by decide) (by decide)).1

/-- C7 witness: adding a diary with a failing embedding oracle leaves the
    metadata store unchanged. -/
theorem C7_add_diary_embed_fail_witness :
    exEmbedFail "c" = []
    ∧ (add_diary exEmbedFail "d3" ["c1"] "2024-02-02" "c" exState).1.embeddings
        = exState.embeddings :=
  ⟨rfl, (C7_add_diary_embed_fail exEmbedFail "d3" ["c1"] "2024-02-02" "c" exState
    rfl (by decide)).2.1⟩

/-- C8 witness: upserting existing id `d1` keeps the id list unchanged. -/
theorem C8_metadata_unique_witness :
    (exState.embeddings.map EmbeddingRecord.diary_id).Nodup
    ∧ (update_diary_embedding exEmbed "d1" "t" exState).embeddings.map
          EmbeddingRecord.diary_id
        = exState.embeddings.map EmbeddingRecord.diary_id :=
  ⟨by decide, (C8_metadata_unique exEmbed "d1" "t" exState (by decide)).2.1
    (by decide) (by decide)⟩

/-- C4 counterexample: `delete_child "c1"` deletes every diary (both
    reference `c1`) yet leaves diary `d1`'s EmbeddingRecord in the metadata
    store — so "whenever a diary is deleted, its EmbeddingRecord is removed"
    fails for this deletion path. -/
theorem C4_delete_child_keeps_record :
    (delete_child "c1" exState).diaries = []
    ∧ (⟨"d1", [3]⟩ : EmbeddingRecord Int) ∈ (delete_child "c1" exState).embeddings :=
  ⟨by decide, by decide⟩

/-- C4 witness: after deleting diary `d2`, the search still returns `d1`,
    whose id differs from the deleted one. -/
theorem C4_delete_consistency_witness :
    exD1 ∈ search_similar_diaries exEmbed (delete_diary "d2" exState) "q" "c1" 5
    ∧ exD1.diary_id ≠ "d2" :=
  ⟨by decide,
    (C4_delete_consistency "d2" exState).2.1 exEmbed "q" "c1" 5 exD1 (by decide)⟩

/-- C9 counterexample: for the child whose stored notes are the empty
    string, the prompt's notes slot holds the empty string, not the
    placeholder — the filled prompt differs from the placeholder-filled
    one. -/
theorem C9_empty_notes_not_replaced :
    generate_advice_user_prompt exEmbedFail exStateNoDiary ⟨2024, 1, 1⟩ "相談" "c1"
      = some (advice_prompt_format "太郎" 0 "0ヶ月" "" "関連する日記はありません。" "相談")
    ∧ advice_prompt_format "太郎" 0 "0ヶ月" "" "関連する日記はありません。" "相談"
      ≠ advice_prompt_format "太郎" 0 "0ヶ月" "特になし" "関連する日記はありません。" "相談" :=
  ⟨by decide, by decide⟩

/-- C9 witness: `exChild` is found, its notes are the stored empty string,
    and the notes slot receives exactly that empty string. -/
theorem C9_notes_slot_witness :
    get_child_by_id exStateNoDiary "c1" = some exChild
    ∧ exChild.notes = some ""
    ∧ notes_for_prompt exChild = "" :=
  ⟨by decide, rfl,
    (C9_notes_slot exEmbedFail exStateNoDiary ⟨2024, 1, 1⟩ "相談" "c1" exChild
      (by decide)).2.1 rfl⟩

end Verification

end Childcare
